import Mathlib

/-!
# Facial-landmark index tables of `Assets/Photobooth/indexes.c`

The source file is a flat list of seventeen `int[]` declarations, each with a
brace initialiser.  Every table is embedded as the `List Int` of its
initialiser, element by element and in the order written; the element type
`Int` stands for the source's signed `int` (all literals are far below
`2^31`, so no wrap-around is involved).
-/

set_option autoImplicit false

namespace Photobooth

/-! ## The seventeen tables, in source order -/

/-- Table `leftEyeIndices` (indexes.c, line 2). -/
def leftEyeIndices : List Int :=
  [33, 7, 163, 144, 145, 153, 154, 155, 133, 173, 157, 158, 159, 160, 161, 246]

/-- Table `rightEyeIndices` (indexes.c, line 5). -/
def rightEyeIndices : List Int :=
  [362, 382, 381, 380, 374, 373, 390, 249, 263, 466, 388, 387, 386, 385, 384, 398]

/-- Table `leftIrisIndices` (indexes.c, line 8). -/
def leftIrisIndices : List Int := [468, 469, 470, 471, 472]

/-- Table `rightIrisIndices` (indexes.c, line 11). -/
def rightIrisIndices : List Int := [473, 474, 475, 476, 477]

/-- Table `outerLipsIndices` (indexes.c, line 14). -/
def outerLipsIndices : List Int :=
  [61, 146, 91, 181, 84, 17, 314, 405, 321, 375, 291, 308, 324, 318, 402, 317, 14, 87, 178, 88, 95]

/-- Table `innerLipsIndices` (indexes.c, line 17). -/
def innerLipsIndices : List Int :=
  [78, 191, 80, 81, 82, 13, 312, 311, 310, 415, 308, 324, 318, 402, 317, 14, 87, 178, 88, 95]

/-- Table `noseIndices` (indexes.c, lines 20-23). -/
def noseIndices : List Int :=
  [1, 2, 98, 327, 168, 197, 195, 5, 4, 45, 220, 115,
   122, 6, 351, 417, 456, 399, 209, 49, 64]

/-- Table `mouthCornerIndices` (indexes.c, line 26): right and left corners. -/
def mouthCornerIndices : List Int := [61, 291]

/-- Table `rightEarIndices` (indexes.c, line 29). -/
def rightEarIndices : List Int := [127, 234, 93, 132, 58, 172, 136]

/-- Table `leftEarIndices` (indexes.c, line 32). -/
def leftEarIndices : List Int := [356, 454, 323, 361, 288, 397, 365]

/-- Table `rightEyebrowIndices` (indexes.c, line 35). -/
def rightEyebrowIndices : List Int := [70, 63, 105, 66, 107, 55, 65, 52, 53, 46]

/-- Table `leftEyebrowIndices` (indexes.c, line 36). -/
def leftEyebrowIndices : List Int := [336, 296, 334, 293, 300, 276, 283, 282, 295, 285]

/-- Table `faceOvalIndices` (indexes.c, lines 39-44). -/
def faceOvalIndices : List Int :=
  [10, 338, 297, 332, 284, 251, 389, 356,
   454, 323, 361, 288, 397, 365, 379, 378,
   400, 377, 152, 148, 176, 149, 150, 136,
   172, 58, 132, 93, 234, 127, 162, 21, 54, 103, 67, 109]

/-- Table `noseBridgeIndices` (indexes.c, line 47). -/
def noseBridgeIndices : List Int := [6, 197, 195, 5, 4, 1, 19, 94, 2]

/-- Table `rightCheekIndices` (indexes.c, line 50). -/
def rightCheekIndices : List Int := [50, 101, 118, 117, 111, 46, 53, 52]

/-- Table `leftCheekIndices` (indexes.c, line 51). -/
def leftCheekIndices : List Int := [280, 330, 349, 347, 341, 265, 353, 339]

/-- Table `foreheadIndices` (indexes.c, line 54). -/
def foreheadIndices : List Int := [10, 338, 297, 332, 284]

/-- Every declaration of indexes.c, in source order: the declared identifier
paired with its table.  The file declares nothing else. -/
def sourceTables : List (String × List Int) :=
  [("leftEyeIndices", leftEyeIndices),
   ("rightEyeIndices", rightEyeIndices),
   ("leftIrisIndices", leftIrisIndices),
   ("rightIrisIndices", rightIrisIndices),
   ("outerLipsIndices", outerLipsIndices),
   ("innerLipsIndices", innerLipsIndices),
   ("noseIndices", noseIndices),
   ("mouthCornerIndices", mouthCornerIndices),
   ("rightEarIndices", rightEarIndices),
   ("leftEarIndices", leftEarIndices),
   ("rightEyebrowIndices", rightEyebrowIndices),
   ("leftEyebrowIndices", leftEyebrowIndices),
   ("faceOvalIndices", faceOvalIndices),
   ("noseBridgeIndices", noseBridgeIndices),
   ("rightCheekIndices", rightCheekIndices),
   ("leftCheekIndices", leftCheekIndices),
   ("foreheadIndices", foreheadIndices)]

/-- The seventeen tables alone, in source order. -/
def allTables : List (List Int) := sourceTables.map Prod.snd

/-- The fifteen tables other than the two iris tables, in source order. -/
def nonIrisTables : List (List Int) :=
  allTables.filter (fun t => !(t == leftIrisIndices || t == rightIrisIndices))

/-- Measurement used in the statements below, not a function of the source:
the largest element of a table of non-negative indices (`0` for an empty one). -/
def maxIndex (t : List Int) : Int := t.foldl max 0

/-- Measurement used in the statements below: the largest index over a
collection of tables. -/
def maxIndexAll (ts : List (List Int)) : Int := maxIndex (ts.map maxIndex)

/-- Reading position `i` of a landmark array: the C# array access `landmarks[i]`
with its bounds check made explicit (`none` stands for the out-of-range
exception, raised for a negative or too large `i`). -/
def landmarkAt {α : Type} (landmarks : List α) (i : Int) : Option α :=
  if i < 0 then none else landmarks[i.toNat]?

/-! ## The registry interface described by the specification

indexes.c holds the tables only.  The region enumeration, the lookup
`getIndices` and its `UnknownRegion` failure are described by the specification
and are modelled here on top of the source tables. -/

/-- Modelled from the spec: the closed enumeration of region names (data model,
field `name`), in the order the specification lists them; indexes.c declares no
such type. -/
inductive Region where
  | LeftEye | RightEye | LeftIris | RightIris | OuterLips | InnerLips | Nose
  | MouthCorners | RightEar | LeftEar | RightEyebrow | LeftEyebrow | FaceOval
  | NoseBridge | RightCheek | LeftCheek | Forehead
  deriving DecidableEq, Repr

/-- Modelled from the spec: the members of the enumeration, in the order listed. -/
def Region.all : List Region :=
  [.LeftEye, .RightEye, .LeftIris, .RightIris, .OuterLips, .InnerLips, .Nose,
   .MouthCorners, .RightEar, .LeftEar, .RightEyebrow, .LeftEyebrow, .FaceOval,
   .NoseBridge, .RightCheek, .LeftCheek, .Forehead]

/-- Modelled from the spec: the name under which a region is looked up. -/
def Region.name : Region → String
  | .LeftEye => "LeftEye"
  | .RightEye => "RightEye"
  | .LeftIris => "LeftIris"
  | .RightIris => "RightIris"
  | .OuterLips => "OuterLips"
  | .InnerLips => "InnerLips"
  | .Nose => "Nose"
  | .MouthCorners => "MouthCorners"
  | .RightEar => "RightEar"
  | .LeftEar => "LeftEar"
  | .RightEyebrow => "RightEyebrow"
  | .LeftEyebrow => "LeftEyebrow"
  | .FaceOval => "FaceOval"
  | .NoseBridge => "NoseBridge"
  | .RightCheek => "RightCheek"
  | .LeftCheek => "LeftCheek"
  | .Forehead => "Forehead"

/-- The identifier indexes.c declares for a region's table. -/
def Region.sourceName : Region → String
  | .LeftEye => "leftEyeIndices"
  | .RightEye => "rightEyeIndices"
  | .LeftIris => "leftIrisIndices"
  | .RightIris => "rightIrisIndices"
  | .OuterLips => "outerLipsIndices"
  | .InnerLips => "innerLipsIndices"
  | .Nose => "noseIndices"
  | .MouthCorners => "mouthCornerIndices"
  | .RightEar => "rightEarIndices"
  | .LeftEar => "leftEarIndices"
  | .RightEyebrow => "rightEyebrowIndices"
  | .LeftEyebrow => "leftEyebrowIndices"
  | .FaceOval => "faceOvalIndices"
  | .NoseBridge => "noseBridgeIndices"
  | .RightCheek => "rightCheekIndices"
  | .LeftCheek => "leftCheekIndices"
  | .Forehead => "foreheadIndices"

/-- The source table that holds a region's indices. -/
def Region.indices : Region → List Int
  | .LeftEye => leftEyeIndices
  | .RightEye => rightEyeIndices
  | .LeftIris => leftIrisIndices
  | .RightIris => rightIrisIndices
  | .OuterLips => outerLipsIndices
  | .InnerLips => innerLipsIndices
  | .Nose => noseIndices
  | .MouthCorners => mouthCornerIndices
  | .RightEar => rightEarIndices
  | .LeftEar => leftEarIndices
  | .RightEyebrow => rightEyebrowIndices
  | .LeftEyebrow => leftEyebrowIndices
  | .FaceOval => faceOvalIndices
  | .NoseBridge => noseBridgeIndices
  | .RightCheek => rightCheekIndices
  | .LeftCheek => leftCheekIndices
  | .Forehead => foreheadIndices

/-- Modelled from the spec: the single error of the registry (error handling
design); indexes.c has no error path. -/
inductive RegistryError where
  | UnknownRegion
  deriving DecidableEq, Repr

/-- Modelled from the spec: the registry as process-wide state, a mapping from
region name to index sequence (system overview). -/
abbrev Registry := List (String × List Int)

/-- Modelled from the spec: the registry as initialised at process start, one
entry per region of the enumeration, holding that region's source table. -/
def Registry.initial : Registry :=
  Region.all.map (fun r => (r.name, r.indices))

/-- Modelled from the spec: the one operation the registry exposes, as a
state-passing step.  It answers with the list stored under the name, or with
`UnknownRegion` when the name has no entry, and hands the registry on. -/
def Registry.getIndices (reg : Registry) (name : String) :
    Except RegistryError (List Int) × Registry :=
  match reg.lookup name with
  | some t => (.ok t, reg)
  | none => (.error .UnknownRegion, reg)

/-- Modelled from the spec: `getIndices(region)` on the registry of the running
process. -/
def getIndices (name : String) : Except RegistryError (List Int) :=
  (Registry.initial.getIndices name).1

/-! ## Shared lemmas -/

set_option maxRecDepth 100000

/-- A landmark read succeeds exactly for a non-negative index below the length
of the array. -/
theorem landmarkAt_isSome_iff {α : Type} (landmarks : List α) (i : Int) :
    (landmarkAt landmarks i).isSome = true ↔ 0 ≤ i ∧ i < landmarks.length := by
  unfold landmarkAt
  by_cases hneg : i < 0
  · simp only [hneg, if_true, Option.isSome_none]
    constructor
    · intro h
      exact absurd h (by decide)
    · intro h
      omega
  · simp only [hneg, if_false]
    have hnn : 0 ≤ i := not_lt.mp hneg
    by_cases hlt : i.toNat < landmarks.length
    · rw [List.getElem?_eq_getElem hlt]
      simp only [Option.isSome_some, true_iff]
      exact ⟨hnn, by omega⟩
    · rw [List.getElem?_eq_none (not_lt.mp hlt)]
      simp only [Option.isSome_none]
      constructor
      · intro h
        exact absurd h (by decide)
      · intro h
        omega

/-- In a duplicate-free list two different positions hold different elements. -/
theorem positions_differ_of_nodup {l : List Int} (h : l.Nodup) (i j : Nat)
    (hi : i < l.length) (hj : j < l.length) (hij : i ≠ j) : l[i]? ≠ l[j]? := by
  intro heq
  rw [List.getElem?_eq_getElem hi, List.getElem?_eq_getElem hj] at heq
  exact hij ((h.getElem_inj_iff).mp (Option.some.inj heq))

/-- All seventeen tables hold only indices between 0 and 477. -/
theorem allTables_within_477 : ∀ t ∈ allTables, ∀ i ∈ t, 0 ≤ i ∧ i ≤ 477 := by
  decide

/-- All seventeen tables are duplicate-free. -/
theorem allTables_nodup : ∀ t ∈ allTables, t.Nodup := by
  decide

/-- The fifteen non-iris tables hold only indices between 0 and 467. -/
theorem nonIrisTables_within_467 : ∀ t ∈ nonIrisTables, ∀ i ∈ t, 0 ≤ i ∧ i ≤ 467 := by
  decide

/-! ## Mouth corners -/

/-- C1, as stated, fails: the first element of `mouthCornerIndices` is 61 and
is the first element of `outerLipsIndices`, but it is not the first element of
`innerLipsIndices`. -/
theorem mouthCorner_first_not_innerLips_first :
    ¬ (mouthCornerIndices.head? = some 61 ∧
       outerLipsIndices.head? = mouthCornerIndices.head? ∧
       innerLipsIndices.head? = mouthCornerIndices.head?) := by
  decide

/-- C1, amended: the first element of `mouthCornerIndices` is 61 and is the
first element of `outerLipsIndices`; `innerLipsIndices` starts with 78 and does
not contain 61 at any position. -/
theorem mouthCorner_first_is_outerLips_first :
    mouthCornerIndices.head? = some 61 ∧
    outerLipsIndices.head? = mouthCornerIndices.head? ∧
    innerLipsIndices.head? = some 78 ∧
    (61 : Int) ∉ innerLipsIndices := by
  decide

/-- C2: `mouthCornerIndices` is exactly the two-element sequence 61, 291: its
length is 2, position 0 holds 61 and position 1 holds 291. -/
theorem mouthCornerIndices_exact :
    mouthCornerIndices = [61, 291] ∧
    mouthCornerIndices.length = 2 ∧
    mouthCornerIndices[0]? = some 61 ∧
    mouthCornerIndices[1]? = some 291 := by
  decide

/-! ## Index range -/

/-- C3: every index of every one of the 17 tables lies between 0 and 477; 477
occurs in `rightIrisIndices`, so the maximum over all tables is exactly 477;
every index can be read from any landmark array of length at least 478, and
from no shorter one can all of them be read. -/
theorem indices_max_477_min_length_478 :
    allTables.length = 17 ∧
    (∀ t ∈ allTables, ∀ i ∈ t, 0 ≤ i ∧ i ≤ 477) ∧
    (rightIrisIndices ∈ allTables ∧ (477 : Int) ∈ rightIrisIndices) ∧
    maxIndexAll allTables = 477 ∧
    (∀ (α : Type) (landmarks : List α), 478 ≤ landmarks.length →
      ∀ t ∈ allTables, ∀ i ∈ t, (landmarkAt landmarks i).isSome = true) ∧
    (∀ (α : Type) (landmarks : List α),
      (∀ t ∈ allTables, ∀ i ∈ t, (landmarkAt landmarks i).isSome = true) →
        478 ≤ landmarks.length) := by
  refine ⟨by decide, allTables_within_477, by decide, by decide, ?_, ?_⟩
  · intro α landmarks hlen t ht i hi
    have hb := allTables_within_477 t ht i hi
    exact (landmarkAt_isSome_iff landmarks i).mpr ⟨hb.1, by omega⟩
  · intro α landmarks hall
    have hread := hall rightIrisIndices (by decide) 477 (by decide)
    have hb := (landmarkAt_isSome_iff landmarks 477).mp hread
    omega

/-- C3 at a concrete input: 477 of `rightIrisIndices` is within the bounds, and
an array of 478 landmarks can be read at it. -/
theorem indices_max_477_min_length_478_witness :
    (0 ≤ (477 : Int) ∧ (477 : Int) ≤ 477) ∧
    (landmarkAt (List.replicate 478 ()) 477).isSome = true :=
  ⟨indices_max_477_min_length_478.2.1 rightIrisIndices (by decide) 477 (by decide),
   indices_max_477_min_length_478.2.2.2.2.1 Unit (List.replicate 478 ()) (by decide)
     rightIrisIndices (by decide) 477 (by decide)⟩

/-! ## Face oval -/

/-- C4: `faceOvalIndices` has exactly 36 entries and no entry occurs twice: any
two different positions hold different indices. -/
theorem faceOvalIndices_length_nodup :
    faceOvalIndices.length = 36 ∧
    faceOvalIndices.Nodup ∧
    (∀ i j : Nat, i < 36 → j < 36 → i ≠ j → faceOvalIndices[i]? ≠ faceOvalIndices[j]?) := by
  have hnd : faceOvalIndices.Nodup := by decide
  refine ⟨by decide, hnd, ?_⟩
  intro i j hi hj hij
  exact positions_differ_of_nodup hnd i j hi hj hij

/-- C4 at a concrete input: positions 0 and 35 of `faceOvalIndices` hold 10 and
109, which differ. -/
theorem faceOvalIndices_length_nodup_witness :
    faceOvalIndices[0]? = some 10 ∧ faceOvalIndices[35]? = some 109 ∧
    faceOvalIndices[0]? ≠ faceOvalIndices[35]? :=
  ⟨by decide, by decide,
   faceOvalIndices_length_nodup.2.2 0 35 (by decide) (by decide) (by decide)⟩

/-! ## Lips -/

/-- C5: each of 308, 324, 318, 402, 317, 14, 87, 178, 88, 95 is an element of
`outerLipsIndices` and of `innerLipsIndices`; in particular 308 is in both. -/
theorem lips_shared_indices :
    (∀ i ∈ ([308, 324, 318, 402, 317, 14, 87, 178, 88, 95] : List Int),
      i ∈ outerLipsIndices ∧ i ∈ innerLipsIndices) ∧
    ((308 : Int) ∈ outerLipsIndices ∧ (308 : Int) ∈ innerLipsIndices) := by
  decide

/-- C5 at a concrete input: 95, the last of the ten, is in both lip tables. -/
theorem lips_shared_indices_witness :
    (95 : Int) ∈ outerLipsIndices ∧ (95 : Int) ∈ innerLipsIndices :=
  lips_shared_indices.1 95 (by decide)

/-! ## Registry lookup -/

/-- Every member of the enumeration is listed in `Region.all`. -/
theorem Region.mem_all (r : Region) : r ∈ Region.all := by
  cases r <;> decide

/-- Looking up the name of a region yields that region's source table. -/
theorem getIndices_name (r : Region) : getIndices r.name = .ok r.indices := by
  cases r <;> rfl

/-- A name outside the enumeration has no entry in the initial registry. -/
theorem lookup_initial_of_not_mem (name : String)
    (h : name ∉ Region.all.map Region.name) :
    List.lookup name Registry.initial = none := by
  rw [List.lookup_eq_none_iff]
  intro p hp
  obtain ⟨r, hr, rfl⟩ := List.mem_map.mp hp
  have hne : name ≠ r.name := fun heq => h (heq ▸ List.mem_map_of_mem _ hr)
  simpa using hne

/-- A name outside the enumeration is answered with `UnknownRegion`. -/
theorem getIndices_of_not_mem (name : String)
    (h : name ∉ Region.all.map Region.name) :
    getIndices name = .error .UnknownRegion := by
  unfold getIndices Registry.getIndices
  rw [lookup_initial_of_not_mem name h]

/-- C6: for every region of the enumeration `getIndices` returns that region's
table and the table is non-empty; each of the 17 source tables has length at
least 1. -/
theorem getIndices_nonempty :
    (∀ r : Region, ∃ t, getIndices r.name = .ok t ∧ t = r.indices ∧ t ≠ [] ∧ 1 ≤ t.length) ∧
    Region.all.map Region.indices = allTables ∧
    allTables.length = 17 ∧
    (∀ t ∈ allTables, 1 ≤ t.length) := by
  refine ⟨?_, by decide, by decide, by decide⟩
  intro r
  refine ⟨r.indices, getIndices_name r, rfl, ?_, ?_⟩ <;> cases r <;> decide

/-- C6 at a concrete input: `mouthCornerIndices`, the shortest table, has
length at least 1. -/
theorem getIndices_nonempty_witness :
    mouthCornerIndices ∈ allTables ∧ 1 ≤ mouthCornerIndices.length :=
  ⟨by decide, getIndices_nonempty.2.2.2 mouthCornerIndices (by decide)⟩

/-- C7: `getIndices` returns the region's table for each of the 17 names of the
enumeration and fails with `UnknownRegion` for every other name, so the lookup
succeeds exactly for the 17 region names; indexes.c declares 17 tables under 17
different identifiers, one for each region in turn and nothing else. -/
theorem getIndices_succeeds_iff_region :
    (∀ r : Region, getIndices r.name = .ok r.indices) ∧
    (∀ name : String, name ∉ Region.all.map Region.name →
      getIndices name = .error .UnknownRegion) ∧
    (∀ name : String, (∃ t, getIndices name = .ok t) ↔ name ∈ Region.all.map Region.name) ∧
    (∀ name : String, (∃ t, getIndices name = .ok t) ↔ ∃ r : Region, r.name = name) ∧
    (Region.all.length = 17 ∧ (Region.all.map Region.name).Nodup) ∧
    (sourceTables.length = 17 ∧ (sourceTables.map Prod.fst).Nodup) ∧
    Region.all.map (fun r => (r.sourceName, r.indices)) = sourceTables := by
  have hiff : ∀ name : String,
      (∃ t, getIndices name = .ok t) ↔ name ∈ Region.all.map Region.name := by
    intro name
    constructor
    · rintro ⟨t, ht⟩
      by_contra hnot
      rw [getIndices_of_not_mem name hnot] at ht
      exact Except.noConfusion ht
    · intro hmem
      obtain ⟨r, _, rfl⟩ := List.mem_map.mp hmem
      exact ⟨r.indices, getIndices_name r⟩
  refine ⟨getIndices_name, getIndices_of_not_mem, hiff, ?_, by decide, by decide, by decide⟩
  intro name
  rw [hiff name]
  constructor
  · intro hmem
    obtain ⟨r, _, hr⟩ := List.mem_map.mp hmem
    exact ⟨r, hr⟩
  · rintro ⟨r, rfl⟩
    exact List.mem_map_of_mem _ (Region.mem_all r)

/-- C7 at concrete inputs: the name `Nostril` is not in the enumeration and is
answered with `UnknownRegion`; the name `FaceOval` is answered with
`faceOvalIndices`. -/
theorem getIndices_succeeds_iff_region_witness :
    "Nostril" ∉ Region.all.map Region.name ∧
    getIndices "Nostril" = .error .UnknownRegion ∧
    getIndices "FaceOval" = .ok faceOvalIndices :=
  ⟨by decide, getIndices_succeeds_iff_region.2.1 "Nostril" (by decide),
   getIndices_succeeds_iff_region.1 Region.FaceOval⟩

/-! ## Duplicates and the iris tables -/

/-- C9: each of the 17 tables is duplicate-free: different positions hold
different indices, and the number of distinct indices equals the length; the
lengths are 16, 16, 5, 5, 21, 20, 21, 2, 7, 7, 10, 10, 36, 9, 8, 8, 5 in source
order. -/
theorem allTables_duplicate_free :
    (∀ t ∈ allTables, t.Nodup) ∧
    (∀ t ∈ allTables, ∀ i j : Nat, i < t.length → j < t.length → i ≠ j → t[i]? ≠ t[j]?) ∧
    (∀ t ∈ allTables, t.toFinset.card = t.length) ∧
    allTables.map List.length = [16, 16, 5, 5, 21, 20, 21, 2, 7, 7, 10, 10, 36, 9, 8, 8, 5] ∧
    allTables.map (fun t => t.toFinset.card)
      = [16, 16, 5, 5, 21, 20, 21, 2, 7, 7, 10, 10, 36, 9, 8, 8, 5] := by
  have hcard : ∀ t ∈ allTables, t.toFinset.card = t.length :=
    fun t ht => List.toFinset_card_of_nodup (allTables_nodup t ht)
  have hlen : allTables.map List.length
      = [16, 16, 5, 5, 21, 20, 21, 2, 7, 7, 10, 10, 36, 9, 8, 8, 5] := by decide
  refine ⟨allTables_nodup, ?_, hcard, hlen, ?_⟩
  · intro t ht i j hi hj hij
    exact positions_differ_of_nodup (allTables_nodup t ht) i j hi hj hij
  · rw [← hlen]
    exact List.map_congr_left hcard

/-- C9 at a concrete input: `noseIndices` is duplicate-free and its positions
0 and 20 hold different indices. -/
theorem allTables_duplicate_free_witness :
    noseIndices ∈ allTables ∧ noseIndices.Nodup ∧ noseIndices[0]? ≠ noseIndices[20]? :=
  ⟨by decide, allTables_duplicate_free.1 noseIndices (by decide),
   allTables_duplicate_free.2.1 noseIndices (by decide) 0 20 (by decide) (by decide)
     (by decide)⟩

/-- C10: `leftIrisIndices` is exactly 468..472 and `rightIrisIndices` exactly
473..477, so every iris index is above 467; every index of each of the other 15
tables is between 0 and 467 and can be read from any landmark array of length
at least 468. -/
theorem only_iris_needs_478 :
    leftIrisIndices = [468, 469, 470, 471, 472] ∧
    rightIrisIndices = [473, 474, 475, 476, 477] ∧
    (∀ i ∈ leftIrisIndices ++ rightIrisIndices, 467 < i) ∧
    nonIrisTables =
      [leftEyeIndices, rightEyeIndices, outerLipsIndices, innerLipsIndices, noseIndices,
       mouthCornerIndices, rightEarIndices, leftEarIndices, rightEyebrowIndices,
       leftEyebrowIndices, faceOvalIndices, noseBridgeIndices, rightCheekIndices,
       leftCheekIndices, foreheadIndices] ∧
    nonIrisTables.length = 15 ∧
    (∀ t ∈ allTables, t ∈ nonIrisTables ∨ t = leftIrisIndices ∨ t = rightIrisIndices) ∧
    (∀ t ∈ nonIrisTables, ∀ i ∈ t, 0 ≤ i ∧ i ≤ 467) ∧
    (∀ (α : Type) (landmarks : List α), 468 ≤ landmarks.length →
      ∀ t ∈ nonIrisTables, ∀ i ∈ t, (landmarkAt landmarks i).isSome = true) := by
  refine ⟨rfl, rfl, by decide, by decide, by decide, by decide,
    nonIrisTables_within_467, ?_⟩
  intro α landmarks hlen t ht i hi
  have hb := nonIrisTables_within_467 t ht i hi
  exact (landmarkAt_isSome_iff landmarks i).mpr ⟨hb.1, by omega⟩

/-- C10 at a concrete input: 466 of `rightEyeIndices`, the largest non-iris
index, is at most 467 and can be read from an array of 468 landmarks. -/
theorem only_iris_needs_478_witness :
    (0 ≤ (466 : Int) ∧ (466 : Int) ≤ 467) ∧
    (landmarkAt (List.replicate 468 ()) 466).isSome = true :=
  ⟨only_iris_needs_478.2.2.2.2.2.2.1 rightEyeIndices (by decide) 466 (by decide),
   only_iris_needs_478.2.2.2.2.2.2.2 Unit (List.replicate 468 ()) (by decide)
     rightEyeIndices (by decide) 466 (by decide)⟩

/-! ## Relations between tables -/

/-- C11: the indices common to `outerLipsIndices` and `innerLipsIndices` are
exactly 308, 324, 318, 402, 317, 14, 87, 178, 88, 95: the last 10 elements of
both tables are this same sequence in the same order, while none of the first
11 elements of `outerLipsIndices` is in `innerLipsIndices` and none of the first
10 elements of `innerLipsIndices` is in `outerLipsIndices`. -/
theorem lips_common_exactly_last_ten :
    (∀ i : Int, (i ∈ outerLipsIndices ∧ i ∈ innerLipsIndices) ↔
      i ∈ ([308, 324, 318, 402, 317, 14, 87, 178, 88, 95] : List Int)) ∧
    (outerLipsIndices.length = 21 ∧ innerLipsIndices.length = 20) ∧
    outerLipsIndices.drop 11 = [308, 324, 318, 402, 317, 14, 87, 178, 88, 95] ∧
    innerLipsIndices.drop 10 = [308, 324, 318, 402, 317, 14, 87, 178, 88, 95] ∧
    outerLipsIndices.drop 11 = innerLipsIndices.drop 10 ∧
    (∀ i ∈ outerLipsIndices.take 11, i ∉ innerLipsIndices) ∧
    (∀ i ∈ innerLipsIndices.take 10, i ∉ outerLipsIndices) := by
  have houter : ∀ i ∈ outerLipsIndices, i ∈ innerLipsIndices →
      i ∈ ([308, 324, 318, 402, 317, 14, 87, 178, 88, 95] : List Int) := by decide
  have hback : ∀ i ∈ ([308, 324, 318, 402, 317, 14, 87, 178, 88, 95] : List Int),
      i ∈ outerLipsIndices ∧ i ∈ innerLipsIndices := by decide
  refine ⟨?_, by decide, by decide, by decide, by decide, by decide, by decide⟩
  intro i
  exact ⟨fun h => houter i h.1 h.2, hback i⟩

/-- C11 at concrete inputs: 61, among the first 11 elements of
`outerLipsIndices`, is not in `innerLipsIndices`; 78, among the first 10 elements
of `innerLipsIndices`, is not in `outerLipsIndices`; 402 is common to both and is
one of the ten. -/
theorem lips_common_exactly_last_ten_witness :
    (61 : Int) ∉ innerLipsIndices ∧ (78 : Int) ∉ outerLipsIndices ∧
    (402 : Int) ∈ ([308, 324, 318, 402, 317, 14, 87, 178, 88, 95] : List Int) :=
  ⟨lips_common_exactly_last_ten.2.2.2.2.2.1 61 (by decide),
   lips_common_exactly_last_ten.2.2.2.2.2.2 78 (by decide),
   (lips_common_exactly_last_ten.1 402).mp ⟨by decide, by decide⟩⟩

/-- C12: `foreheadIndices` is the first 5 elements of `faceOvalIndices`
(positions 0..4), `leftEarIndices` is positions 7..13 of `faceOvalIndices`, and
`rightEarIndices` reversed is positions 23..29 of `faceOvalIndices`; each is thus
a contiguous run of the face oval. -/
theorem faceOval_contains_runs :
    foreheadIndices = faceOvalIndices.take 5 ∧
    leftEarIndices = (faceOvalIndices.drop 7).take 7 ∧
    rightEarIndices.reverse = (faceOvalIndices.drop 23).take 7 ∧
    (foreheadIndices.length = 5 ∧ leftEarIndices.length = 7 ∧ rightEarIndices.length = 7) ∧
    (∀ k : Nat, k < 5 → foreheadIndices[k]? = faceOvalIndices[k]?) ∧
    (∀ k : Nat, k < 7 → leftEarIndices[k]? = faceOvalIndices[7 + k]?) ∧
    (∀ k : Nat, k < 7 → rightEarIndices.reverse[k]? = faceOvalIndices[23 + k]?) ∧
    (foreheadIndices <:+: faceOvalIndices ∧ leftEarIndices <:+: faceOvalIndices ∧
      rightEarIndices.reverse <:+: faceOvalIndices) := by
  have hf : foreheadIndices = faceOvalIndices.take 5 := by decide
  have hl : leftEarIndices = (faceOvalIndices.drop 7).take 7 := by decide
  have hr : rightEarIndices.reverse = (faceOvalIndices.drop 23).take 7 := by decide
  refine ⟨hf, hl, hr, by decide, by decide, by decide, by decide, ?_, ?_, ?_⟩
  · rw [hf]
    exact (List.take_prefix 5 faceOvalIndices).isInfix
  · rw [hl]
    exact (List.take_prefix 7 _).isInfix.trans (List.drop_suffix 7 faceOvalIndices).isInfix
  · rw [hr]
    exact (List.take_prefix 7 _).isInfix.trans (List.drop_suffix 23 faceOvalIndices).isInfix

/-- C12 at concrete inputs: position 4 of `foreheadIndices` is position 4 of
`faceOvalIndices`, position 6 of `leftEarIndices` is position 13 of
`faceOvalIndices`, and position 0 of `rightEarIndices` reversed is position 23 of
`faceOvalIndices`. -/
theorem faceOval_contains_runs_witness :
    foreheadIndices[4]? = faceOvalIndices[4]? ∧
    leftEarIndices[6]? = faceOvalIndices[7 + 6]? ∧
    rightEarIndices.reverse[0]? = faceOvalIndices[23 + 0]? :=
  ⟨faceOval_contains_runs.2.2.2.2.1 4 (by decide),
   faceOval_contains_runs.2.2.2.2.2.1 6 (by decide),
   faceOval_contains_runs.2.2.2.2.2.2.1 0 (by decide)⟩

/-- C13: every element of `mouthCornerIndices` is an element of
`outerLipsIndices`: 61 is at position 0 and 291 at position 10, so the corners
bound the run of positions 0..10, which starts with 61 and ends with 291, and 10
points remain after it. -/
theorem mouthCorners_in_outerLips :
    (∀ i ∈ mouthCornerIndices, i ∈ outerLipsIndices) ∧
    outerLipsIndices[0]? = some 61 ∧
    outerLipsIndices[10]? = some 291 ∧
    (outerLipsIndices.indexOf 61 = 0 ∧ outerLipsIndices.indexOf 291 = 10) ∧
    outerLipsIndices.take 11 = [61, 146, 91, 181, 84, 17, 314, 405, 321, 375, 291] ∧
    ((outerLipsIndices.take 11).head? = mouthCornerIndices[0]? ∧
      (outerLipsIndices.take 11).getLast? = mouthCornerIndices[1]?) ∧
    (outerLipsIndices.drop 11).length = 10 ∧
    outerLipsIndices = outerLipsIndices.take 11 ++ outerLipsIndices.drop 11 := by
  decide

/-- C13 at a concrete input: 291, the second mouth corner, is in
`outerLipsIndices`. -/
theorem mouthCorners_in_outerLips_witness :
    (291 : Int) ∈ mouthCornerIndices ∧ (291 : Int) ∈ outerLipsIndices :=
  ⟨by decide, mouthCorners_in_outerLips.1 291 (by decide)⟩

/-- C14: in each of the five left/right pairs (eyes, irises, ears, eyebrows,
cheeks) the left and the right table have the same length and no index in
common. -/
theorem left_right_pairs_same_length_disjoint :
    ∀ p ∈ [(leftEyeIndices, rightEyeIndices), (leftIrisIndices, rightIrisIndices),
           (leftEarIndices, rightEarIndices), (leftEyebrowIndices, rightEyebrowIndices),
           (leftCheekIndices, rightCheekIndices)],
      p.1.length = p.2.length ∧ (∀ i ∈ p.1, i ∉ p.2) ∧ (∀ i ∈ p.2, i ∉ p.1) := by
  decide

/-- C14 at a concrete input: `leftEarIndices` and `rightEarIndices` both have 7
entries, and 356 of the left table is not in the right one. -/
theorem left_right_pairs_same_length_disjoint_witness :
    leftEarIndices.length = 7 ∧ rightEarIndices.length = 7 ∧
    (356 : Int) ∉ rightEarIndices :=
  have h := left_right_pairs_same_length_disjoint (leftEarIndices, rightEarIndices) (by decide)
  ⟨by decide, by decide, h.2.1 356 (by decide)⟩

end Photobooth
